import Mathlib

/-!
Formal model of the Sparkify data-lake ETL script (etl.py).

The script reads song-metadata JSON records and user-activity log records
into Spark dataframes and derives five output tables (songs, artists,
users, time, songplays) by pure, declarative transformations: filters,
projections, a per-row timestamp decomposition, distinct/deduplication,
and a chain of equi-joins.  We embed those transformations shallowly:

* a dataframe is a `List` of typed row structures (Spark guarantees no
  order, so all properties proved here are order-insensitive facts such
  as membership, counts and emptiness, which coincide with the multiset
  reading);
* the string columns produced by `strftime` in the formats
  `YYYY-MM-DD HH:MM:SS` and `YYYY-MM-DD` are represented by the records
  `DateTime` and `DateOnly` of their fields — on the values produced the
  zero-padded formats are injective, so string equality (used by the
  joins and by `distinct`) coincides with record equality;
* the song `duration` and event `length` columns are IEEE doubles that
  the script only ever compares for equality (in the songplays join);
  no arithmetic is performed on them, so they are modelled by an
  arbitrary type with decidable equality, concretely `Int`;
* `datetime.fromtimestamp` converts an epoch instant to local time; we
  model the local zone as a fixed offset `tz` in seconds, an explicit
  parameter of every derived table (the script inherits whatever zone
  the cluster runs in);
* the Spark SQL temp-view registry (`createOrReplaceTempView` /
  `spark.sql`) is modelled by an explicit `Session` state threaded
  through `process_song_data` and `process_log_data`.

Calendar arithmetic is the standard proleptic-Gregorian conversion
(the algorithms used by civil-time libraries), which is what both
Python `datetime` and Spark SQL `extract` implement.
-/

namespace Etl

/-! ## Calendar arithmetic -/

/-- Convert days since 1970-01-01 to a civil (year, month, day) triple in
the proleptic Gregorian calendar. -/
def civilFromDays (z : Int) : Int × Nat × Nat :=
  let z := z + 719468
  let era : Int := Int.fdiv z 146097
  let doe : Nat := (Int.fmod z 146097).toNat
  let yoe : Nat := (doe - doe / 1460 + doe / 36524 - doe / 146096) / 365
  let doy : Nat := doe - (365 * yoe + yoe / 4 - yoe / 100)
  let mp : Nat := (5 * doy + 2) / 153
  let d : Nat := doy - (153 * mp + 2) / 5 + 1
  let m : Nat := if mp < 10 then mp + 3 else mp - 9
  (era * 400 + (yoe : Int) + (if m ≤ 2 then 1 else 0), m, d)

/-- Convert a civil (year, month, day) to days since 1970-01-01,
inverse of `civilFromDays`. -/
def daysFromCivil (y : Int) (m d : Nat) : Int :=
  let y := if m ≤ 2 then y - 1 else y
  let era : Int := Int.fdiv y 400
  let yoe : Nat := (y - era * 400).toNat
  let doy : Nat := (153 * (if m > 2 then m - 3 else m + 9) + 2) / 5 + d - 1
  let doe : Nat := yoe * 365 + yoe / 4 - yoe / 100 + doy
  era * 146097 + (doe : Int) - 719468

/-- Day of week of a civil date in the Spark SQL `dayofweek` convention:
1 = Sunday, 2 = Monday, ..., 7 = Saturday. -/
def dayofweek (y : Int) (m d : Nat) : Nat :=
  (Int.fmod (daysFromCivil y m d + 4) 7).toNat + 1

/-- Day of week in the ISO-8601 convention: 1 = Monday, ..., 7 = Sunday. -/
def isoDayOfWeek (y : Int) (m d : Nat) : Nat :=
  (Int.fmod (daysFromCivil y m d + 3) 7).toNat + 1

/-- Number of ISO-8601 weeks (52 or 53) in a given year. -/
def isoWeeksInYear (y : Int) : Nat :=
  let p : Int → Int := fun v => Int.fmod (v + Int.fdiv v 4 - Int.fdiv v 100 + Int.fdiv v 400) 7
  if p y = 4 ∨ p (y - 1) = 3 then 53 else 52

/-- One-based ordinal of a date within its year. -/
def dayOfYear (y : Int) (m d : Nat) : Nat :=
  (daysFromCivil y m d - daysFromCivil y 1 1).toNat + 1

/-- ISO-8601 week number of a civil date, as computed by Spark SQL
`weekofyear` and `extract(week from ...)`. -/
def weekofyear (y : Int) (m d : Nat) : Nat :=
  let w : Int := Int.fdiv ((dayOfYear y m d : Int) - (isoDayOfWeek y m d : Int) + 10) 7
  if w < 1 then isoWeeksInYear (y - 1)
  else if w > (isoWeeksInYear y : Int) then 1
  else w.toNat

/-! ## Timestamp values

A value of the `timestamp` column (string `YYYY-MM-DD HH:MM:SS`) is a
`DateTime`; a value of the `datetime` column (string `YYYY-MM-DD`) is a
`DateOnly`. -/

structure DateTime where
  year : Int
  month : Nat
  day : Nat
  hour : Nat
  minute : Nat
  second : Nat
deriving DecidableEq, Repr

structure DateOnly where
  year : Int
  month : Nat
  day : Nat
deriving DecidableEq, Repr

/-- Epoch seconds of the local instant: the script divides the raw
epoch-millisecond `ts` by 1000, and `fromtimestamp` applies the zone
offset; truncation of the fractional part is floor division. -/
def localSeconds (tz ts : Int) : Int :=
  Int.fdiv ts 1000 + tz

/-- The first UDF of the script:
`lambda x: datetime.fromtimestamp(x/1000).strftime(%Y-%m-%d %H:%M:%S)`,
the second-truncated local timestamp of the raw epoch-millisecond `ts`. -/
def get_timestamp (tz ts : Int) : DateTime :=
  let s := localSeconds tz ts
  let ymd := civilFromDays (Int.fdiv s 86400)
  let sod := (Int.fmod s 86400).toNat
  ⟨ymd.1, ymd.2.1, ymd.2.2, sod / 3600, sod % 3600 / 60, sod % 60⟩

/-- The second UDF of the script:
`lambda x: datetime.fromtimestamp(x/1000).strftime(%Y-%m-%d)`,
the local calendar date of the raw epoch-millisecond `ts`. -/
def get_datetime (tz ts : Int) : DateOnly :=
  let s := localSeconds tz ts
  let ymd := civilFromDays (Int.fdiv s 86400)
  ⟨ymd.1, ymd.2.1, ymd.2.2⟩

/-- Spark SQL casts a date-only string `YYYY-MM-DD` to the timestamp
`YYYY-MM-DD 00:00:00` before applying `extract`. -/
def castDateToTimestamp (d : DateOnly) : DateTime :=
  ⟨d.year, d.month, d.day, 0, 0, 0⟩

/-- Spark SQL `extract(dayofweek from t)`: day of week of the date part,
1 = Sunday through 7 = Saturday. -/
def extractDayofweek (t : DateTime) : Nat :=
  dayofweek t.year t.month t.day

/-- Spark SQL `extract(week from t)`: ISO-8601 week number of the date
part. -/
def extractWeek (t : DateTime) : Nat :=
  weekofyear t.year t.month t.day

/-! ## Row types

One structure per dataframe row shape.  Fields carry the column names of
the script.  `duration` and `length` are the IEEE doubles of the JSON
input, used only in equality tests, modelled by `Int` (see the header). -/

/-- One song-metadata JSON record (the fields the script uses). -/
structure SongRow where
  song_id : String
  title : String
  artist_id : String
  year : Int
  duration : Int
  artist_name : String
  artist_location : String
  artist_latitude : Option Int
  artist_longitude : Option Int
deriving DecidableEq, Repr

/-- One event-log JSON record: the `page` column consulted by the filter
plus the twelve columns the script selects. -/
structure LogRow where
  page : String
  artist : String
  firstName : String
  gender : String
  lastName : String
  length : Int
  level : String
  location : String
  sessionId : Int
  song : String
  ts : Int
  userAgent : String
  userId : String
deriving DecidableEq, Repr

/-- A row of `filtered_df`: the twelve selected columns. -/
structure FilteredRow where
  artist : String
  firstName : String
  gender : String
  lastName : String
  length : Int
  level : String
  location : String
  sessionId : Int
  song : String
  ts : Int
  userAgent : String
  userId : String
deriving DecidableEq, Repr

/-- A row of the songs output table. -/
structure SongsRow where
  song_id : String
  title : String
  artist_id : String
  year : Int
  duration : Int
deriving DecidableEq, Repr

/-- A row of the artists output table. -/
structure ArtistRow where
  artist_id : String
  name : String
  location : String
  lattitude : Option Int
  longitude : Option Int
deriving DecidableEq, Repr

/-- A row of the users output table (columns keep their log names, as in
the script, which selects without renaming). -/
structure UserRow where
  userId : String
  firstName : String
  lastName : String
  gender : String
  level : String
deriving DecidableEq, Repr

/-- A row of `staging_events_table`: a filtered row with the two derived
columns added by `withColumn`. -/
structure StagingEventRow where
  e : FilteredRow
  timestamp : DateTime
  datetime : DateOnly
deriving DecidableEq, Repr

/-- A row of the time output table. -/
structure TimeRow where
  start_time : DateTime
  hour : Nat
  day : Nat
  week : Nat
  month : Nat
  year : Int
  weekday : Nat
deriving DecidableEq, Repr

/-- A row of the songplays output table. -/
structure SongplayRow where
  start_time : DateTime
  user_id : String
  level : String
  song_id : String
  artist_id : String
  session_id : Int
  location : String
  user_agent : String
  year : Int
  month : Nat
deriving DecidableEq, Repr

/-! ## Song-side tables (process_song_data) -/

/-- Line 46: `df.select(song_id, title, artist_id, year, duration)`. -/
def songs_table (song_df : List SongRow) : List SongsRow :=
  song_df.map fun r => ⟨r.song_id, r.title, r.artist_id, r.year, r.duration⟩

/-- Lines 52-57: the SQL projection of `staging_songs_table` renaming
`artist_name` to `name`, `artist_location` to `location`,
`artist_latitude` to `lattitude`, `artist_longitude` to `longitude`. -/
def artists_table (song_df : List SongRow) : List ArtistRow :=
  song_df.map fun r =>
    ⟨r.artist_id, r.artist_name, r.artist_location, r.artist_latitude, r.artist_longitude⟩

/-! ## Log-side tables (process_log_data) -/

/-- Line 86: keep rows with `page == NextSong`, select the twelve
columns, `dropDuplicates`. -/
def projectFiltered (r : LogRow) : FilteredRow :=
  ⟨r.artist, r.firstName, r.gender, r.lastName, r.length, r.level, r.location,
   r.sessionId, r.song, r.ts, r.userAgent, r.userId⟩

def filtered_df (log : List LogRow) : List FilteredRow :=
  ((log.filter fun r => r.page == "NextSong").map projectFiltered).dedup

/-- Line 89: `filtered_df.select(userId, firstName, lastName, gender, level)`. -/
def user_table (log : List LogRow) : List UserRow :=
  (filtered_df log).map fun r => ⟨r.userId, r.firstName, r.lastName, r.gender, r.level⟩

/-- Lines 96 and 100: `withColumn(timestamp, get_timestamp(ts))` then
`withColumn(datetime, get_datetime(ts))`. -/
def staging_events_table (tz : Int) (log : List LogRow) : List StagingEventRow :=
  (filtered_df log).map fun r => ⟨r, get_timestamp tz r.ts, get_datetime tz r.ts⟩

/-- The row shape of the time-table SQL (lines 106-113): every column of
the `select` is extracted from the `timestamp` or `datetime` column —
`hour`, `day`, `week`, `month` and `year` from the date-only `datetime`
(which Spark first casts to a midnight timestamp), `weekday` from the
full `timestamp`. -/
def timeRow (stamp : DateTime) (dt : DateOnly) : TimeRow :=
  { start_time := stamp
    hour := (castDateToTimestamp dt).hour
    day := (castDateToTimestamp dt).day
    week := extractWeek (castDateToTimestamp dt)
    month := (castDateToTimestamp dt).month
    year := (castDateToTimestamp dt).year
    weekday := extractDayofweek stamp }

/-- Lines 106-113: `select distinct` of the extracted columns over
`staging_events_table`. -/
def time_table (tz : Int) (log : List LogRow) : List TimeRow :=
  ((staging_events_table tz log).map fun r => timeRow r.timestamp r.datetime).dedup

/-- The time-table row as a function of `start_time` alone: the script
derives the `datetime` column from the same instant as the `timestamp`
column, so each row is determined by its `start_time`. -/
def timeRowOfStart (st : DateTime) : TimeRow :=
  timeRow st ⟨st.year, st.month, st.day⟩

/-- Lines 127-141: the four-way inner equi-join producing songplays,
over the staging events, the song metadata (view `staging_songs_table`),
the artists table and the time table.  Inner-join bag semantics: one
output row per tuple of operand rows satisfying every `ON` condition. -/
def joinSongplays (es : List StagingEventRow) (ss : List SongRow)
    (arts : List ArtistRow) (tt : List TimeRow) : List SongplayRow :=
  es.flatMap fun e =>
    ss.flatMap fun s =>
      arts.flatMap fun a =>
        tt.filterMap fun t =>
          if (e.e.song == s.title && e.e.length == s.duration) &&
             (e.e.artist == a.name && a.artist_id == s.artist_id) &&
             (e.timestamp == t.start_time) then
            some ⟨e.timestamp, e.e.userId, e.e.level, s.song_id, s.artist_id,
                  e.e.sessionId, e.e.location, e.e.userAgent, t.year, t.month⟩
          else none

/-- The songplays table as the composed pure function of the two inputs:
the join evaluated at the views the pipeline registers for it. -/
def songplays_table (tz : Int) (song_df : List SongRow) (log : List LogRow) :
    List SongplayRow :=
  joinSongplays (staging_events_table tz log) song_df (artists_table song_df)
    (time_table tz log)

/-! ## The Spark session and the two process functions

`createOrReplaceTempView` registers a dataframe under a name in the
session; `spark.sql` resolves the names it mentions against the session
and fails (an analysis error) when a name is unregistered.  The session
is the only state shared between `process_song_data` and
`process_log_data`. -/

structure Session where
  staging_songs_view : Option (List SongRow)
  artists_view : Option (List ArtistRow)
  staging_events_view : Option (List StagingEventRow)
  time_view : Option (List TimeRow)
deriving DecidableEq, Repr

def emptySession : Session := ⟨none, none, none, none⟩

/-- Lines 25-63: read the song metadata, register the
`staging_songs_table` view, build and write the songs table, build the
artists table by SQL over that view, register the `artists_table` view,
write it.  Returns the updated session and the two written tables. -/
def process_song_data (sess : Session) (song_df : List SongRow) :
    Session × List SongsRow × List ArtistRow :=
  let sess1 := { sess with staging_songs_view := some song_df }
  let songs := songs_table song_df
  let artists := artists_table song_df
  let sess2 := { sess1 with artists_view := some artists }
  (sess2, songs, artists)

/-- Lines 127-141 as executed: the songplays SQL mentions the views
`staging_events_table`, `staging_songs_table`, `artists_table` and
`time_table`; it fails when any of them is unregistered. -/
def songplaysQuery (sess : Session) : Option (List SongplayRow) :=
  match sess.staging_events_view, sess.staging_songs_view,
        sess.artists_view, sess.time_view with
  | some es, some ss, some arts, some tt => some (joinSongplays es ss arts tt)
  | _, _, _, _ => none

/-- Lines 65-145: filter and project the log, write users, add the two
derived timestamp columns, register `staging_events_table`, build the
time table by SQL, register `time_table`, write it, re-read the song
metadata into `song_df` (the argument `song_df_reread`, bound at line
124 and never used afterwards), then run the songplays SQL against the
session views.  Returns the updated session and the written tables, the
songplays table being `none` when its SQL fails to resolve a view. -/
def process_log_data (sess : Session) (tz : Int) (song_df_reread : List SongRow)
    (log : List LogRow) :
    Session × List UserRow × List TimeRow × Option (List SongplayRow) :=
  let users := user_table log
  let staged := staging_events_table tz log
  let sess1 := { sess with staging_events_view := some staged }
  let tt := time_table tz log
  let sess2 := { sess1 with time_view := some tt }
  let _song_df := song_df_reread
  let sp := songplaysQuery sess2
  (sess2, users, tt, sp)

/-- The refinement candidate: `process_log_data` with the redundant
re-read of the song metadata removed, the body otherwise identical. -/
def process_log_data_noreread (sess : Session) (tz : Int) (log : List LogRow) :
    Session × List UserRow × List TimeRow × Option (List SongplayRow) :=
  let users := user_table log
  let staged := staging_events_table tz log
  let sess1 := { sess with staging_events_view := some staged }
  let tt := time_table tz log
  let sess2 := { sess1 with time_view := some tt }
  let sp := songplaysQuery sess2
  (sess2, users, tt, sp)

/-- Lines 148-158: `main` runs `process_song_data` then
`process_log_data` on one fresh session; both read the song metadata
from the same input path, so the re-read argument is the same
dataframe.  Result: the five output tables. -/
def mainPipeline (tz : Int) (song_df : List SongRow) (log : List LogRow) :
    List SongsRow × List ArtistRow × List UserRow × List TimeRow ×
      Option (List SongplayRow) :=
  let r1 := process_song_data emptySession song_df
  let r2 := process_log_data r1.1 tz song_df log
  (r1.2.1, r1.2.2, r2.2.1, r2.2.2.1, r2.2.2.2)

/-! ## Concrete fixtures

Small concrete inputs used to evaluate the definitions in closed
theorems.  The timestamp 1541121934796 is the one named by the spec;
with zone offset 0 its second-truncated instant is
2018-11-02 01:25:34 (a Friday, ISO week 44). -/

def songA : SongRow :=
  { song_id := "SOAAA", title := "TitleA", artist_id := "ARAAA", year := 2000,
    duration := 200, artist_name := "ArtistA", artist_location := "LocA",
    artist_latitude := some 10, artist_longitude := some 20 }

/-- Same title and duration as `songA`, different artist. -/
def songB : SongRow :=
  { song_id := "SOBBB", title := "TitleA", artist_id := "ARBBB", year := 2001,
    duration := 200, artist_name := "ArtistB", artist_location := "LocB",
    artist_latitude := none, artist_longitude := none }

/-- A NextSong event naming the artist of `songA` and matching its title
and duration, at the timestamp named by the spec. -/
def evA : LogRow :=
  { page := "NextSong", artist := "ArtistA", firstName := "F", gender := "F",
    lastName := "L", length := 200, level := "paid", location := "Loc",
    sessionId := 7, song := "TitleA", ts := 1541121934796, userAgent := "UA",
    userId := "U1" }

/-- The same selected columns as `evA` but a non-playback page. -/
def evHome : LogRow := { evA with page := "Home" }

/-- Same second as `evA`, different millisecond. -/
def evB : LogRow := { evA with ts := 1541121934100 }

/-- A NextSong event matching no song record of the fixtures. -/
def evNoMatch : LogRow := { evA with song := "Unknown", length := 999 }

/-! ## Helper lemmas -/

/-- The two derived columns of a staging row describe the same instant,
so the time-table row of an event is a function of its timestamp. -/
theorem timeRow_of_ts (tz ts : Int) :
    timeRow (get_timestamp tz ts) (get_datetime tz ts) =
      timeRowOfStart (get_timestamp tz ts) := rfl

/-- Filtering the log to NextSong rows first changes nothing: the
pipeline itself applies that filter. -/
theorem filtered_df_filter_nextsong (log : List LogRow) :
    filtered_df (log.filter fun r => r.page == "NextSong") = filtered_df log := by
  simp [filtered_df, List.filter_filter]

theorem mem_filtered_df_of_mem (log : List LogRow) (e : LogRow)
    (he : e ∈ log) (hp : e.page = "NextSong") :
    projectFiltered e ∈ filtered_df log := by
  unfold filtered_df
  rw [List.mem_dedup]
  exact List.mem_map_of_mem _ (List.mem_filter.mpr ⟨he, by simp [hp]⟩)

/-- Every row of the time table is the canonical row of some filtered
event timestamp. -/
theorem time_table_shape (tz : Int) (log : List LogRow) (t : TimeRow)
    (ht : t ∈ time_table tz log) :
    ∃ r ∈ filtered_df log, t = timeRowOfStart (get_timestamp tz r.ts) := by
  unfold time_table staging_events_table at ht
  rw [List.mem_dedup, List.map_map, List.mem_map] at ht
  obtain ⟨r, hr, rfl⟩ := ht
  exact ⟨r, hr, rfl⟩

/-! ## Claim theorems -/

/-- C1: at the timestamp named by the spec, ts = 1541121934796 (zone
offset 0), the second-truncated instant is 2018-11-02 01:25:34, and the
time-table row carries that start_time with matching day, week, month,
year and weekday — but its hour is 0, not the hour 1 of the instant:
the script extracts hour from the date-only datetime column, so hour
never reflects the time of day.  This evaluates the code at the
failing input of the claim. -/
theorem time_table_hour_bug_at_spec_ts :
    time_table 0 [evA] =
      [{ start_time := ⟨2018, 11, 2, 1, 25, 34⟩, hour := 0, day := 2, week := 44,
         month := 11, year := 2018, weekday := 6 }] ∧
    (get_timestamp 0 1541121934796).hour = 1 := by
  constructor
  · decide
  · decide

/-- C4: the users, time and songplays tables are computed exclusively
from the NextSong-filtered events: restricting the raw log to rows with
page = NextSong beforehand leaves all three tables unchanged, so no row
of any of them derives from an event of a different page. -/
theorem nextsong_filter_correctness (tz : Int) (song_df : List SongRow)
    (log : List LogRow) :
    user_table (log.filter fun r => r.page == "NextSong") = user_table log ∧
    time_table tz (log.filter fun r => r.page == "NextSong") = time_table tz log ∧
    songplays_table tz song_df (log.filter fun r => r.page == "NextSong") =
      songplays_table tz song_df log := by
  refine ⟨?_, ?_, ?_⟩ <;>
    simp only [user_table, time_table, songplays_table, staging_events_table,
      filtered_df_filter_nextsong]

/-- C8: the pipeline is deterministic — it is a pure function of the
two input dataframes (and the zone the cluster runs in), so two runs on
identical inputs produce identical contents for all five tables. -/
theorem pipeline_deterministic (tz1 tz2 : Int) (s1 s2 : List SongRow)
    (l1 l2 : List LogRow) (htz : tz1 = tz2) (hs : s1 = s2) (hl : l1 = l2) :
    mainPipeline tz1 s1 l1 = mainPipeline tz2 s2 l2 := by
  rw [htz, hs, hl]

theorem pipeline_deterministic_witness :
    0 = 0 ∧ mainPipeline 0 [songA] [evA] = mainPipeline 0 [songA] [evA] :=
  ⟨rfl, pipeline_deterministic 0 0 [songA] [songA] [evA] [evA] rfl rfl rfl⟩

/-- C9: every weekday value of the time table is the day of week of its
own full second-truncated start_time, in the SQL dayofweek convention
anchored here on concrete dates: 1 = Sunday (2018-11-04), 2 = Monday
(2018-11-05), 7 = Saturday (2018-11-10); being a single function of the
row, the convention is identical for every row of every run. -/
theorem weekday_convention (tz : Int) (log : List LogRow) :
    ((time_table tz log).all fun t =>
        t.weekday == extractDayofweek t.start_time) = true ∧
    dayofweek 2018 11 4 = 1 ∧ dayofweek 2018 11 5 = 2 ∧ dayofweek 2018 11 10 = 7 := by
  refine ⟨?_, by decide, by decide, by decide⟩
  rw [List.all_eq_true]
  intro t ht
  obtain ⟨r, _, rfl⟩ := time_table_shape tz log t ht
  simp [timeRowOfStart, timeRow]

/-- C10: the song metadata re-read inside process_log_data is dead: the
function with the re-read removed computes the identical result on
every session; after process_song_data has registered its views, the
songplays output is exactly the pure join of the two inputs; and on a
fresh session, with no process_song_data run first, the songplays query
fails to resolve its views and produces no table. -/
theorem songplays_reread_redundant (sess : Session) (tz : Int)
    (song_df reread : List SongRow) (log : List LogRow) :
    process_log_data sess tz reread log = process_log_data_noreread sess tz log ∧
    (process_log_data (process_song_data emptySession song_df).1 tz reread
        log).2.2.2 = some (songplays_table tz song_df log) ∧
    (process_log_data emptySession tz reread log).2.2.2 = none :=
  ⟨rfl, rfl, rfl⟩

/-- C5: referential integrity — every songplays row carries a song_id
present in the songs table and an artist_id present in the artists
table, and every songs row has an artists row sharing its artist_id
(both tables project the same metadata records). -/
theorem referential_integrity (tz : Int) (song_df : List SongRow)
    (log : List LogRow) :
    ((songplays_table tz song_df log).all fun p =>
        ((songs_table song_df).any fun s => s.song_id == p.song_id) &&
        ((artists_table song_df).any fun a => a.artist_id == p.artist_id)) = true ∧
    ((songs_table song_df).all fun srow =>
        (artists_table song_df).any fun a => a.artist_id == srow.artist_id) = true := by
  constructor
  · rw [List.all_eq_true]
    intro p hp
    simp only [songplays_table, joinSongplays, List.mem_flatMap,
      List.mem_filterMap] at hp
    obtain ⟨e, he, s, hs, a, ha, t, ht, hcond⟩ := hp
    split at hcond
    next hc =>
      obtain rfl := Option.some.inj hcond
      simp only [Bool.and_eq_true, beq_iff_eq] at hc
      obtain ⟨⟨⟨hsong, hlen⟩, hartist, haid⟩, hts⟩ := hc
      rw [Bool.and_eq_true]
      constructor
      · rw [List.any_eq_true]
        exact ⟨⟨s.song_id, s.title, s.artist_id, s.year, s.duration⟩,
          List.mem_map_of_mem _ hs, by simp⟩
      · rw [List.any_eq_true]
        exact ⟨a, ha, by simp [haid]⟩
    next =>
      exact absurd hcond (by simp)
  · rw [List.all_eq_true]
    intro srow hsr
    obtain ⟨r, hr, rfl⟩ := List.mem_map.mp hsr
    rw [List.any_eq_true]
    exact ⟨⟨r.artist_id, r.artist_name, r.artist_location, r.artist_latitude,
      r.artist_longitude⟩, List.mem_map_of_mem _ hr, by simp⟩

/-- C6 counterexample: two raw records identical in all twelve selected
columns whose page is not NextSong produce zero filtered rows, not
exactly one, refuting the claim as stated. -/
theorem dedup_claim_counterexample :
    ¬ (filtered_df [evHome, evHome]).count (projectFiltered evHome) = 1 := by
  decide

/-- C6 amended: for two records of the raw log identical in all twelve
selected columns, at least one of which is a NextSong event, the
filtered dataframe contains exactly one row with those column
values. -/
theorem dedup_correctness_amended (log : List LogRow) (a b : LogRow)
    (ha : a ∈ log) (hb : b ∈ log) (hab : projectFiltered a = projectFiltered b)
    (hpage : a.page = "NextSong") :
    (filtered_df log).count (projectFiltered a) = 1 := by
  unfold filtered_df
  rw [List.count_dedup,
    if_pos (List.mem_map_of_mem _ (List.mem_filter.mpr ⟨ha, by simp [hpage]⟩))]

theorem dedup_correctness_amended_witness :
    (filtered_df [evA, evA]).count (projectFiltered evA) = 1 :=
  dedup_correctness_amended [evA, evA] evA evA (by decide) (by decide) rfl
    (by decide)

/-- C7: two filtered events with distinct raw millisecond timestamps in
the same whole second yield the same second-truncated start_time, and
the time table holds exactly one row for that second: the canonical row
of the second occurs once, and every row carrying that start_time is
that row. -/
theorem time_second_collapse (tz : Int) (log : List LogRow) (e1 e2 : LogRow)
    (h1 : e1 ∈ log) (h2 : e2 ∈ log) (hp1 : e1.page = "NextSong")
    (hp2 : e2.page = "NextSong") (hne : e1.ts ≠ e2.ts)
    (hsec : Int.fdiv e1.ts 1000 = Int.fdiv e2.ts 1000) :
    get_timestamp tz e1.ts = get_timestamp tz e2.ts ∧
    (time_table tz log).count (timeRowOfStart (get_timestamp tz e1.ts)) = 1 ∧
    ((time_table tz log).all fun t =>
        t.start_time != get_timestamp tz e1.ts ||
        t == timeRowOfStart (get_timestamp tz e1.ts)) = true := by
  refine ⟨?_, ?_, ?_⟩
  · unfold get_timestamp localSeconds
    rw [hsec]
  · have hmem : timeRowOfStart (get_timestamp tz e1.ts) ∈
        (staging_events_table tz log).map fun r => timeRow r.timestamp r.datetime := by
      unfold staging_events_table
      rw [List.map_map]
      exact List.mem_map.mpr
        ⟨projectFiltered e1, mem_filtered_df_of_mem log e1 h1 hp1, rfl⟩
    unfold time_table
    rw [List.count_dedup, if_pos hmem]
  · rw [List.all_eq_true]
    intro t ht
    obtain ⟨r, hr, rfl⟩ := time_table_shape tz log t ht
    by_cases hx : get_timestamp tz r.ts = get_timestamp tz e1.ts
    · rw [hx]
      simp
    · simp [timeRowOfStart, timeRow, hx]

theorem time_second_collapse_witness :
    get_timestamp 0 evA.ts = get_timestamp 0 evB.ts ∧
    (time_table 0 [evA, evB]).count (timeRowOfStart (get_timestamp 0 evA.ts)) = 1 ∧
    ((time_table 0 [evA, evB]).all fun t =>
        t.start_time != get_timestamp 0 evA.ts ||
        t == timeRowOfStart (get_timestamp 0 evA.ts)) = true :=
  time_second_collapse 0 [evA, evB] evA evB (by decide) (by decide) (by decide)
    (by decide) (by decide) (by decide)

/-- Evaluation of the pipeline on a one-event log: the filter keeps the
event when its page is NextSong. -/
theorem filtered_df_singleton (e : LogRow) (h : e.page = "NextSong") :
    filtered_df [e] = [projectFiltered e] := by
  simp [filtered_df, h]

theorem staging_events_singleton (tz : Int) (e : LogRow) (h : e.page = "NextSong") :
    staging_events_table tz [e] =
      [⟨projectFiltered e, get_timestamp tz e.ts, get_datetime tz e.ts⟩] := by
  unfold staging_events_table
  rw [filtered_df_singleton e h]
  rfl

theorem time_table_singleton (tz : Int) (e : LogRow) (h : e.page = "NextSong") :
    time_table tz [e] = [timeRowOfStart (get_timestamp tz e.ts)] := by
  unfold time_table
  rw [staging_events_singleton tz e h]
  simp [timeRow_of_ts]

/-- C2: with two song records sharing title and duration but owned by
different artists, and an event naming the first artist, the songplays
table holds exactly the row for the named artist's song: the second
join condition, artist name together with matching artist_id, rejects
the cross-artist combination. -/
theorem songplays_join_disambiguation (tz : Int) (s1 s2 : SongRow) (e : LogRow)
    (htitle : s1.title = s2.title) (hdur : s1.duration = s2.duration)
    (hid : s1.artist_id ≠ s2.artist_id) (hname : s1.artist_name ≠ s2.artist_name)
    (hpage : e.page = "NextSong") (hsong : e.song = s1.title)
    (hlen : e.length = s1.duration) (hartist : e.artist = s1.artist_name) :
    songplays_table tz [s1, s2] [e] =
      [{ start_time := get_timestamp tz e.ts, user_id := e.userId,
         level := e.level, song_id := s1.song_id, artist_id := s1.artist_id,
         session_id := e.sessionId, location := e.location,
         user_agent := e.userAgent, year := (get_datetime tz e.ts).year,
         month := (get_datetime tz e.ts).month }] := by
  have hb1 : (s1.artist_id == s2.artist_id) = false :=
    beq_eq_false_iff_ne.mpr hid
  have hb2 : (s1.artist_name == s2.artist_name) = false :=
    beq_eq_false_iff_ne.mpr hname
  unfold songplays_table
  rw [staging_events_singleton tz e hpage, time_table_singleton tz e hpage]
  simp [joinSongplays, artists_table, projectFiltered, timeRowOfStart, timeRow,
    castDateToTimestamp, get_timestamp, get_datetime, hsong, hlen, hartist,
    htitle, hdur, hb1, hb2]
  exact ⟨fun hh => absurd hh hname, hid, hname⟩

theorem songplays_join_disambiguation_witness :
    songplays_table 0 [songA, songB] [evA] =
      [{ start_time := get_timestamp 0 evA.ts, user_id := evA.userId,
         level := evA.level, song_id := songA.song_id,
         artist_id := songA.artist_id, session_id := evA.sessionId,
         location := evA.location, user_agent := evA.userAgent,
         year := (get_datetime 0 evA.ts).year,
         month := (get_datetime 0 evA.ts).month }] :=
  songplays_join_disambiguation 0 songA songB evA (by decide) (by decide)
    (by decide) (by decide) (by decide) (by decide) (by decide) (by decide)

/-- C3: an event whose song and length match no metadata record on
title and duration contributes no songplays row at all — the inner join
drops it, and no null-filled row exists (output rows always carry the
song_id and artist_id of a matched record). -/
theorem songplays_no_match_exclusion (tz : Int) (song_df : List SongRow)
    (e : LogRow) (h : ∀ s ∈ song_df, ¬(e.song = s.title ∧ e.length = s.duration)) :
    songplays_table tz song_df [e] = [] := by
  unfold songplays_table joinSongplays
  rw [List.flatMap_eq_nil_iff]
  intro x hx
  have hxe : x.e.song = e.song ∧ x.e.length = e.length := by
    unfold staging_events_table at hx
    obtain ⟨r, hr, rfl⟩ := List.mem_map.mp hx
    unfold filtered_df at hr
    rw [List.mem_dedup] at hr
    obtain ⟨l, hl, rfl⟩ := List.mem_map.mp hr
    rw [List.mem_filter] at hl
    have hle : l ∈ [e] := hl.1
    rw [List.mem_singleton] at hle
    subst hle
    exact ⟨rfl, rfl⟩
  rw [List.flatMap_eq_nil_iff]
  intro s hs
  rw [List.flatMap_eq_nil_iff]
  intro a ha
  rw [List.filterMap_eq_nil_iff]
  intro t ht
  have hfalse : (x.e.song == s.title && x.e.length == s.duration) = false := by
    rw [hxe.1, hxe.2]
    have hns := h s hs
    cases hq : (e.song == s.title)
    · simp
    · rw [beq_iff_eq] at hq
      have hlen : e.length ≠ s.duration := fun hh => hns ⟨hq, hh⟩
      simp [beq_eq_false_iff_ne.mpr hlen]
  rw [hfalse]
  simp

theorem songplays_no_match_exclusion_witness :
    songplays_table 0 [songA] [evNoMatch] = [] :=
  songplays_no_match_exclusion 0 [songA] evNoMatch (by decide)

end Etl
